import Mathlib

/-!
Shallow embedding of the ServiceNow MCP catalog-task tools
(`src/servicenow_mcp/tools/catalog_task_tools.py`) and of the SSE session
handler (`src/servicenow_mcp/server_sse.py`), together with theorems about
the behaviour of the three tool handlers (`list_catalog_tasks`,
`get_catalog_task`, `update_catalog_task`) and of `handle_sse`.

Remote HTTP traffic is modelled by an oracle `remote : HttpRequest →
HttpOutcome`; each handler returns its Python return value together with
the ordered trace of outbound requests it issued, so that properties about
which requests are sent (and how many) can be stated directly.
-/

/-- A Python value as it appears in the handlers: `None`, strings, ints,
booleans, lists and string-keyed dicts (the shapes produced by
`response.json()` and by the handlers themselves). -/
inductive PyVal where
  | none
  | str (s : String)
  | int (n : Int)
  | boolean (b : Bool)
  | list (xs : List PyVal)
  | dict (fields : List (String × PyVal))
deriving Repr

/-- Python `d.get(k)`: the value stored under `k`, `None` when the key is
absent or the receiver is not a dict. -/
def PyVal.get (v : PyVal) (k : String) : PyVal :=
  match v with
  | .dict fields =>
    match fields.lookup k with
    | some x => x
    | Option.none => .none
  | _ => .none

/-- Python `d.get(k, d0)`: like `PyVal.get` but with an explicit default. -/
def PyVal.getD (v : PyVal) (k : String) (d0 : PyVal) : PyVal :=
  match v with
  | .dict fields =>
    match fields.lookup k with
    | some x => x
    | Option.none => d0
  | _ => d0

/-- Python truthiness on `PyVal` (`None`, `""`, `0`, `False`, `[]`, `{}`
are falsy). -/
def PyVal.truthy : PyVal → Bool
  | .none => false
  | .str s => !s.isEmpty
  | .int n => n != 0
  | .boolean b => b
  | .list xs => !xs.isEmpty
  | .dict fs => !fs.isEmpty

/-- Rendering of a `PyVal` inside an f-string (`str(v)`); only scalar
renderings are observable in the handlers' messages. -/
def PyVal.render : PyVal → String
  | .none => "None"
  | .str s => s
  | .int n => toString n
  | .boolean b => if b then "True" else "False"
  | .list _ => "[...]"
  | .dict _ => "{...}"

/-- An outbound HTTP request as issued through the `requests` library:
method, URL, query parameters (`params=`), auth headers and JSON body
(`json=`, used only by PUT). -/
structure HttpRequest where
  method : String
  url : String
  params : List (String × String)
  headers : List (String × String)
  jsonBody : List (String × String)
deriving Repr, DecidableEq

/-- Outcome of a remote call: either a `requests.RequestException`
(network error, or `raise_for_status` on a non-2xx response) carrying its
rendered message, or a 2xx response whose JSON body parsed to `body`. -/
inductive HttpOutcome where
  | exc (msg : String)
  | ok (body : PyVal)
deriving Repr

/-- The remote environment: a deterministic oracle answering each request. -/
def Remote : Type := HttpRequest → HttpOutcome

/-- The part of `ServerConfig` the handlers read. -/
structure ServerConfig where
  api_url : String
  timeout : Nat
deriving Repr, DecidableEq

/-- Parameters of `list_catalog_tasks` (pydantic `ListCatalogTasksParams`;
optional text fields default to `None`). -/
structure ListCatalogTasksParams where
  limit : Int := 10
  offset : Int := 0
  state : Option String := Option.none
  assigned_to : Option String := Option.none
  assignment_group : Option String := Option.none
  request : Option String := Option.none
  query : Option String := Option.none
deriving Repr, DecidableEq

/-- Parameters of `get_catalog_task`. -/
structure GetCatalogTaskParams where
  task_id : String
deriving Repr, DecidableEq

/-- Parameters of `update_catalog_task`. -/
structure UpdateCatalogTaskParams where
  task_id : String
  state : Option String := Option.none
  assigned_to : Option String := Option.none
  assignment_group : Option String := Option.none
  work_notes : Option String := Option.none
  close_notes : Option String := Option.none
deriving Repr, DecidableEq

/-- `CatalogTaskResponse` (pydantic): `success`, `message`, and the
optional affected-task identifiers (`None` by default). -/
structure CatalogTaskResponse where
  success : Bool
  message : String
  task_id : PyVal := PyVal.none
  task_number : PyVal := PyVal.none
deriving Repr

/-- Python truthiness of an `Optional[str]` parameter: present and
non-empty. -/
def optTruthy : Option String → Bool
  | some s => !s.isEmpty
  | Option.none => false

/-- `filters.append(f"{tag}{s}")` guarded by `if params.field:`; returns
the zero- or one-element list this guard contributes. -/
def optFilterEntry (tag : String) (field : Option String) : List String :=
  match field with
  | some s => if s.isEmpty then [] else [tag ++ s]
  | Option.none => []

/-- The `query` filter entry:
`short_descriptionLIKE{q}^ORdescriptionLIKE{q}`. -/
def queryFilterEntry (field : Option String) : List String :=
  match field with
  | some q =>
    if q.isEmpty then []
    else ["short_descriptionLIKE" ++ q ++ "^ORdescriptionLIKE" ++ q]
  | Option.none => []

/-- The `filters` list built by `list_catalog_tasks`. -/
def listFilters (p : ListCatalogTasksParams) : List String :=
  optFilterEntry "state=" p.state
    ++ optFilterEntry "assigned_to=" p.assigned_to
    ++ optFilterEntry "assignment_group=" p.assignment_group
    ++ optFilterEntry "request=" p.request
    ++ queryFilterEntry p.query

/-- The `query_params` dict of `list_catalog_tasks`: pagination and
display options, plus `sysparm_query` exactly when some filter fired. -/
def listQueryParams (p : ListCatalogTasksParams) : List (String × String) :=
  let base := [("sysparm_limit", toString p.limit),
               ("sysparm_offset", toString p.offset),
               ("sysparm_display_value", "true"),
               ("sysparm_exclude_reference_link", "true")]
  let filters := listFilters p
  if filters.isEmpty then base
  else base ++ [("sysparm_query", String.intercalate "^" filters)]

/-- `data.get("result", [])` as a list of records (non-list shapes give
the empty iteration). -/
def resultList (body : PyVal) : List PyVal :=
  match body.get "result" with
  | .list xs => xs
  | _ => []

/-- Reference-field normalisation: a dict collapses to its
`display_value`; a scalar passes through unchanged. -/
def displayNorm (v : PyVal) : PyVal :=
  match v with
  | .dict _ => v.get "display_value"
  | _ => v

/-- The `request_sys_id` projection: a dict yields its `value`, a scalar
passes through. -/
def requestSysId (v : PyVal) : PyVal :=
  match v with
  | .dict _ => v.get "value"
  | _ => v

/-- The normalised task dict built inside the `list_catalog_tasks` loop. -/
def normalizeListTask (task_data : PyVal) : List (String × PyVal) :=
  [("sys_id", task_data.get "sys_id"),
   ("number", task_data.get "number"),
   ("short_description", task_data.get "short_description"),
   ("description", task_data.get "description"),
   ("state", task_data.get "state"),
   ("assigned_to", displayNorm (task_data.get "assigned_to")),
   ("assignment_group", displayNorm (task_data.get "assignment_group")),
   ("request", displayNorm (task_data.get "request")),
   ("request_sys_id", requestSysId (task_data.get "request")),
   ("created_on", task_data.get "sys_created_on"),
   ("updated_on", task_data.get "sys_updated_on"),
   ("due_date", task_data.get "due_date"),
   ("priority", task_data.get "priority")]

/-- The normalised task dict built by `get_catalog_task`: the list shape
plus `work_notes` and `close_notes`. -/
def normalizeGetTask (task_data : PyVal) : List (String × PyVal) :=
  normalizeListTask task_data
    ++ [("work_notes", task_data.get "work_notes"),
        ("close_notes", task_data.get "close_notes")]

/-- The single GET issued by `list_catalog_tasks`. -/
def listRequest (config : ServerConfig) (authHeaders : List (String × String))
    (p : ListCatalogTasksParams) : HttpRequest :=
  { method := "GET",
    url := config.api_url ++ "/table/sc_task",
    params := listQueryParams p,
    headers := authHeaders,
    jsonBody := [] }

/-- `list_catalog_tasks`: one GET to `/table/sc_task`; on success each
record of `result` is normalised; a `RequestException` becomes a
`success=False` dict with an empty `tasks` list. Returns the Python
return value paired with the trace of outbound requests. -/
def list_catalog_tasks (config : ServerConfig)
    (authHeaders : List (String × String)) (params : ListCatalogTasksParams)
    (remote : Remote) : PyVal × List HttpRequest :=
  let req := listRequest config authHeaders params
  match remote req with
  | .exc e =>
    (.dict [("success", .boolean false),
            ("message", .str ("Failed to list catalog tasks: " ++ e)),
            ("tasks", .list [])], [req])
  | .ok body =>
    let tasks := (resultList body).map (fun td => PyVal.dict (normalizeListTask td))
    (.dict [("success", .boolean true),
            ("message", .str ("Found " ++ toString tasks.length ++ " catalog tasks")),
            ("tasks", .list tasks)], [req])

/-- The characters of the literal `"0123456789abcdef"`. -/
def hexDigits : List Char := "0123456789abcdef".data

/-- The sys_id shape test used by `get_catalog_task` and
`update_catalog_task`: `len(task_id) == 32 and all(c in "0123456789abcdef"
for c in task_id)`. -/
def isSysId (s : String) : Bool :=
  s.length == 32 && s.data.all (fun c => hexDigits.contains c)

/-- The direct single-record GET issued by `get_catalog_task` when the
identifier is sys_id-shaped. -/
def getDirectRequest (config : ServerConfig)
    (authHeaders : List (String × String)) (task_id : String) : HttpRequest :=
  { method := "GET",
    url := config.api_url ++ "/table/sc_task/" ++ task_id,
    params := [("sysparm_display_value", "true"),
               ("sysparm_exclude_reference_link", "true")],
    headers := authHeaders,
    jsonBody := [] }

/-- The number-resolution GET issued by `get_catalog_task` when the
identifier is not sys_id-shaped. -/
def getNumberQueryRequest (config : ServerConfig)
    (authHeaders : List (String × String)) (task_id : String) : HttpRequest :=
  { method := "GET",
    url := config.api_url ++ "/table/sc_task",
    params := [("sysparm_query", "number=" ++ task_id),
               ("sysparm_limit", "1"),
               ("sysparm_display_value", "true"),
               ("sysparm_exclude_reference_link", "true")],
    headers := authHeaders,
    jsonBody := [] }

/-- The success dict of `get_catalog_task`: message interpolating
`task_data.get('number', task_id)` and the normalised task. -/
def getSuccessResult (task_data : PyVal) (task_id : String) : PyVal :=
  .dict [("success", .boolean true),
         ("message", .str ("Catalog task "
            ++ (task_data.getD "number" (.str task_id)).render ++ " found")),
         ("task", .dict (normalizeGetTask task_data))]

/-- `get_catalog_task`: a sys_id-shaped identifier is fetched directly
from `/table/sc_task/{task_id}`; any other identifier is resolved through
a `number={task_id}` query with `sysparm_limit=1`. Empty results yield a
not-found failure; a `RequestException` yields a fetch-failure dict. -/
def get_catalog_task (config : ServerConfig)
    (authHeaders : List (String × String)) (params : GetCatalogTaskParams)
    (remote : Remote) : PyVal × List HttpRequest :=
  let task_id := params.task_id
  if isSysId task_id then
    let req := getDirectRequest config authHeaders task_id
    match remote req with
    | .exc e =>
      (.dict [("success", .boolean false),
              ("message", .str ("Failed to fetch catalog task: " ++ e))], [req])
    | .ok body =>
      let task_data := body.getD "result" (.dict [])
      if !task_data.truthy then
        (.dict [("success", .boolean false),
                ("message", .str ("Catalog task not found: " ++ task_id))], [req])
      else
        (getSuccessResult task_data task_id, [req])
  else
    let req := getNumberQueryRequest config authHeaders task_id
    match remote req with
    | .exc e =>
      (.dict [("success", .boolean false),
              ("message", .str ("Failed to fetch catalog task: " ++ e))], [req])
    | .ok body =>
      match resultList body with
      | [] =>
        (.dict [("success", .boolean false),
                ("message", .str ("Catalog task not found: " ++ task_id))], [req])
      | task_data :: _ =>
        (getSuccessResult task_data task_id, [req])

/-- One `if params.field:` guard of the PUT body: contributes `{k: s}`
exactly when the optional parameter is a non-empty string. -/
def optDataEntry (k : String) (v : Option String) : List (String × String) :=
  match v with
  | some s => if s.isEmpty then [] else [(k, s)]
  | Option.none => []

/-- The `data` dict of the PUT issued by `update_catalog_task`. -/
def buildUpdateData (p : UpdateCatalogTaskParams) : List (String × String) :=
  optDataEntry "state" p.state
    ++ optDataEntry "assigned_to" p.assigned_to
    ++ optDataEntry "assignment_group" p.assignment_group
    ++ optDataEntry "work_notes" p.work_notes
    ++ optDataEntry "close_notes" p.close_notes

/-- The PUT request of `update_catalog_task`. -/
def putRequest (authHeaders : List (String × String))
    (p : UpdateCatalogTaskParams) (api_url : String) : HttpRequest :=
  { method := "PUT",
    url := api_url,
    params := [],
    headers := authHeaders,
    jsonBody := buildUpdateData p }

/-- The final PUT step of `update_catalog_task`, shared by both identifier
shapes; `trace0` is the trace accumulated before the PUT. -/
def updatePutStep (authHeaders : List (String × String))
    (p : UpdateCatalogTaskParams) (api_url : String) (remote : Remote)
    (trace0 : List HttpRequest) : CatalogTaskResponse × List HttpRequest :=
  let req := putRequest authHeaders p api_url
  match remote req with
  | .exc e =>
    ({ success := false, message := "Failed to update catalog task: " ++ e },
     trace0 ++ [req])
  | .ok body =>
    let result := body.getD "result" (.dict [])
    ({ success := true,
       message := "Catalog task updated successfully",
       task_id := result.get "sys_id",
       task_number := result.get "number" },
     trace0 ++ [req])

/-- The sys_id-resolution GET of `update_catalog_task` (only
`sysparm_query` and `sysparm_limit`, no display options). -/
def updateNumberQueryRequest (config : ServerConfig)
    (authHeaders : List (String × String)) (task_id : String) : HttpRequest :=
  { method := "GET",
    url := config.api_url ++ "/table/sc_task",
    params := [("sysparm_query", "number=" ++ task_id),
               ("sysparm_limit", "1")],
    headers := authHeaders,
    jsonBody := [] }

/-- `update_catalog_task`: a sys_id-shaped identifier goes straight to the
PUT; otherwise a GET first resolves the sys_id by number (short-circuiting
with a not-found failure when the query returns no rows), and the PUT goes
to `/table/sc_task/{sys_id}`. -/
def update_catalog_task (config : ServerConfig)
    (authHeaders : List (String × String)) (params : UpdateCatalogTaskParams)
    (remote : Remote) : CatalogTaskResponse × List HttpRequest :=
  let task_id := params.task_id
  if isSysId task_id then
    updatePutStep authHeaders params
      (config.api_url ++ "/table/sc_task/" ++ task_id) remote []
  else
    let req := updateNumberQueryRequest config authHeaders task_id
    match remote req with
    | .exc e =>
      ({ success := false, message := "Failed to find catalog task: " ++ e },
       [req])
    | .ok body =>
      match resultList body with
      | [] =>
        ({ success := false, message := "Catalog task not found: " ++ task_id },
         [req])
      | r :: _ =>
        let sys_id := (r.get "sys_id").render
        updatePutStep authHeaders params
          (config.api_url ++ "/table/sc_task/" ++ sys_id) remote [req]

/-- Outcome of the SSE session handler: an early JSON error response, or a
session whose MCP instance is built from the three header values. -/
inductive SseResult where
  | jsonError (status : Nat) (body : List (String × String))
  | session (instance_url : String) (username : String) (password : String)
deriving Repr, DecidableEq

/-- Python truthiness of `request.headers.get(...)`: present and
non-empty. -/
def headerTruthy : Option String → Bool
  | some s => !s.isEmpty
  | Option.none => false

/-- `handle_sse`: if any of the three ServiceNow headers is missing (or
falsy), it returns a 400 JSON error; otherwise it creates an MCP instance
from the header values and runs the session. -/
def handle_sse (instance_url : Option String) (username : Option String)
    (password : Option String) : SseResult :=
  if !(headerTruthy instance_url && headerTruthy username
        && headerTruthy password) then
    .jsonError 400 [("error", "Missing required headers for ServiceNow connection")]
  else
    .session (instance_url.getD "") (username.getD "") (password.getD "")

/-! Concrete values used to instantiate the theorems below. -/

/-- A concrete server configuration. -/
def cfgEx : ServerConfig := { api_url := "https://dev.service-now.com/api/now", timeout := 30 }

/-- Concrete auth headers. -/
def hdrsEx : List (String × String) := [("Authorization", "Basic dXNlcjpwdw==")]

/-- A sys_id-shaped identifier (32 lowercase-hex characters). -/
def sidEx : String := "0123456789abcdef0123456789abcdef"

/-- A task-number identifier (not sys_id-shaped). -/
def numEx : String := "SCTASK0010001"

/-- A concrete remote record for the task. -/
def recEx : PyVal :=
  .dict [("sys_id", .str sidEx), ("number", .str numEx),
         ("short_description", .str "Deploy laptop"),
         ("assigned_to", .dict [("display_value", .str "Abel Tuter"),
                                ("value", .str "aabbccddeeff00112233445566778899")])]

/-- A remote on which every call fails with a `RequestException`. -/
def remoteExc : Remote := fun _ => .exc "connection error"

/-- A remote whose every query returns an empty result list. -/
def remoteEmpty : Remote := fun _ => .ok (.dict [("result", .list [])])

/-- A remote that finds `recEx`: number queries return a one-row result,
single-record GETs and PUTs return the record itself. -/
def remoteFound : Remote := fun r =>
  if r.method == "PUT" || r.url == cfgEx.api_url ++ "/table/sc_task/" ++ sidEx then
    .ok (.dict [("result", recEx)])
  else
    .ok (.dict [("result", .list [recEx])])

/-! Helper lemmas shared by the claim theorems. -/

/-- `isSysId` holds exactly on 32-character strings over `0-9a-f`. -/
theorem isSysId_iff (s : String) :
    isSysId s = true ↔ (s.length = 32 ∧ ∀ c ∈ s.data, c ∈ hexDigits) := by
  simp [isSysId, Bool.and_eq_true, List.all_eq_true, List.contains, List.elem_iff]

/-- `list_catalog_tasks` sends exactly its one GET. -/
theorem list_trace (config : ServerConfig) (hs : List (String × String))
    (p : ListCatalogTasksParams) (remote : Remote) :
    (list_catalog_tasks config hs p remote).2 = [listRequest config hs p] := by
  unfold list_catalog_tasks
  cases hrem : remote (listRequest config hs p) <;> simp [hrem]

/-- `get_catalog_task` sends exactly one GET, chosen by the sys_id shape
of the identifier. -/
theorem get_trace (config : ServerConfig) (hs : List (String × String))
    (gp : GetCatalogTaskParams) (remote : Remote) :
    (get_catalog_task config hs gp remote).2 =
      [if isSysId gp.task_id then getDirectRequest config hs gp.task_id
       else getNumberQueryRequest config hs gp.task_id] := by
  unfold get_catalog_task
  by_cases h : isSysId gp.task_id
  · simp only [h, if_true]
    cases hrem : remote (getDirectRequest config hs gp.task_id) with
    | exc e => simp [hrem]
    | ok body => simp only [hrem]; split <;> rfl
  · simp only [Bool.not_eq_true] at h
    simp only [h, Bool.false_eq_true, if_false]
    cases hrem : remote (getNumberQueryRequest config hs gp.task_id) with
    | exc e => simp [hrem]
    | ok body => simp only [hrem]; split <;> rfl

/-- The trace of the shared PUT step is the accumulated trace plus the PUT. -/
theorem updatePutStep_trace (hs : List (String × String))
    (p : UpdateCatalogTaskParams) (u : String) (remote : Remote)
    (trace0 : List HttpRequest) :
    (updatePutStep hs p u remote trace0).2 = trace0 ++ [putRequest hs p u] := by
  unfold updatePutStep
  cases hrem : remote (putRequest hs p u) <;> simp [hrem]

/-- With a sys_id-shaped identifier, `update_catalog_task` is just the PUT
step on the single-record URL. -/
theorem update_sysid_eq (config : ServerConfig) (hs : List (String × String))
    (p : UpdateCatalogTaskParams) (remote : Remote)
    (h : isSysId p.task_id = true) :
    update_catalog_task config hs p remote =
      updatePutStep hs p (config.api_url ++ "/table/sc_task/" ++ p.task_id)
        remote [] := by
  unfold update_catalog_task
  simp [h]

/-- With a non-sys_id identifier whose resolution GET fails, the update
returns the find-failure response after the one GET. -/
theorem update_nonsysid_exc (config : ServerConfig) (hs : List (String × String))
    (p : UpdateCatalogTaskParams) (remote : Remote) (e : String)
    (h : isSysId p.task_id = false)
    (he : remote (updateNumberQueryRequest config hs p.task_id) = .exc e) :
    update_catalog_task config hs p remote =
      ({ success := false, message := "Failed to find catalog task: " ++ e },
       [updateNumberQueryRequest config hs p.task_id]) := by
  unfold update_catalog_task
  simp [h, he]

/-- With a non-sys_id identifier whose resolution returns no rows, the
update short-circuits with the not-found response after the one GET. -/
theorem update_nonsysid_empty (config : ServerConfig) (hs : List (String × String))
    (p : UpdateCatalogTaskParams) (remote : Remote) (body : PyVal)
    (h : isSysId p.task_id = false)
    (hok : remote (updateNumberQueryRequest config hs p.task_id) = .ok body)
    (hres : resultList body = []) :
    update_catalog_task config hs p remote =
      ({ success := false, message := "Catalog task not found: " ++ p.task_id },
       [updateNumberQueryRequest config hs p.task_id]) := by
  unfold update_catalog_task
  simp [h, hok, hres]

/-- With a non-sys_id identifier whose resolution returns a row, the
update is the PUT step on the resolved sys_id, after the GET. -/
theorem update_nonsysid_found (config : ServerConfig) (hs : List (String × String))
    (p : UpdateCatalogTaskParams) (remote : Remote) (body : PyVal)
    (r : PyVal) (rs : List PyVal)
    (h : isSysId p.task_id = false)
    (hok : remote (updateNumberQueryRequest config hs p.task_id) = .ok body)
    (hres : resultList body = r :: rs) :
    update_catalog_task config hs p remote =
      updatePutStep hs p
        (config.api_url ++ "/table/sc_task/" ++ (r.get "sys_id").render)
        remote [updateNumberQueryRequest config hs p.task_id] := by
  unfold update_catalog_task
  simp [h, hok, hres]

/-- C1: `get_catalog_task` and `update_catalog_task` treat `task_id` as a
sys_id exactly when it has length 32 and every character is a lowercase
hex digit: in that case the request goes directly to
`/table/sc_task/{task_id}` (no number query); for every other `task_id`
the first outbound request is a GET on `/table/sc_task` with
`sysparm_query = number={task_id}` and `sysparm_limit = 1`. -/
theorem C1_sysid_dispatch (config : ServerConfig) (hs : List (String × String))
    (gp : GetCatalogTaskParams) (up : UpdateCatalogTaskParams) (remote : Remote) :
    (∀ s : String, isSysId s = true ↔ (s.length = 32 ∧ ∀ c ∈ s.data, c ∈ hexDigits))
    ∧ (isSysId gp.task_id = true →
        (get_catalog_task config hs gp remote).2 =
          [getDirectRequest config hs gp.task_id]
        ∧ (getDirectRequest config hs gp.task_id).url =
            config.api_url ++ "/table/sc_task/" ++ gp.task_id
        ∧ (getDirectRequest config hs gp.task_id).params.lookup "sysparm_query" =
            Option.none)
    ∧ (isSysId gp.task_id = false →
        (get_catalog_task config hs gp remote).2 =
          [getNumberQueryRequest config hs gp.task_id]
        ∧ (getNumberQueryRequest config hs gp.task_id).url =
            config.api_url ++ "/table/sc_task"
        ∧ (getNumberQueryRequest config hs gp.task_id).params.lookup "sysparm_query" =
            some ("number=" ++ gp.task_id)
        ∧ (getNumberQueryRequest config hs gp.task_id).params.lookup "sysparm_limit" =
            some "1")
    ∧ (isSysId up.task_id = true →
        (update_catalog_task config hs up remote).2 =
          [putRequest hs up (config.api_url ++ "/table/sc_task/" ++ up.task_id)]
        ∧ (putRequest hs up (config.api_url ++ "/table/sc_task/" ++ up.task_id)).url =
            config.api_url ++ "/table/sc_task/" ++ up.task_id)
    ∧ (isSysId up.task_id = false →
        ((update_catalog_task config hs up remote).2).head? =
          some (updateNumberQueryRequest config hs up.task_id)
        ∧ (updateNumberQueryRequest config hs up.task_id).url =
            config.api_url ++ "/table/sc_task"
        ∧ (updateNumberQueryRequest config hs up.task_id).params.lookup "sysparm_query" =
            some ("number=" ++ up.task_id)
        ∧ (updateNumberQueryRequest config hs up.task_id).params.lookup "sysparm_limit" =
            some "1") := by
  refine ⟨isSysId_iff, ?_, ?_, ?_, ?_⟩
  · intro h
    rw [get_trace]
    simp [h, getDirectRequest]
  · intro h
    rw [get_trace]
    exact ⟨by simp [h], rfl, rfl, rfl⟩
  · intro h
    rw [update_sysid_eq config hs up remote h, updatePutStep_trace]
    exact ⟨rfl, rfl⟩
  · intro h
    refine ⟨?_, rfl, rfl, rfl⟩
    cases hrem : remote (updateNumberQueryRequest config hs up.task_id) with
    | exc e =>
      rw [update_nonsysid_exc config hs up remote e h hrem]
      rfl
    | ok body =>
      cases hres : resultList body with
      | nil =>
        rw [update_nonsysid_empty config hs up remote body h hrem hres]
        rfl
      | cons r rs =>
        rw [update_nonsysid_found config hs up remote body r rs h hrem hres,
          updatePutStep_trace]
        rfl

/-- Witness for C1 at a concrete sys_id-shaped and a concrete
number-shaped identifier. -/
theorem C1_sysid_dispatch_witness :
    isSysId sidEx = true ∧ isSysId numEx = false
    ∧ (get_catalog_task cfgEx hdrsEx ⟨sidEx⟩ remoteFound).2 =
        [getDirectRequest cfgEx hdrsEx sidEx]
    ∧ ((update_catalog_task cfgEx hdrsEx { task_id := numEx } remoteFound).2).head? =
        some (updateNumberQueryRequest cfgEx hdrsEx numEx) := by
  have h := C1_sysid_dispatch cfgEx hdrsEx ⟨sidEx⟩ { task_id := numEx } remoteFound
  exact ⟨by decide, by decide, (h.2.1 (by decide)).1, (h.2.2.2.2 (by decide)).1⟩

/-- C2: for a non-sys_id `task_id`, `update_catalog_task` first issues the
resolving GET; if the resolution result list is empty it returns
`success=false` with a not-found message and issues no PUT at all, and if
a row is found the PUT follows the GET. -/
theorem C2_resolution_short_circuit (config : ServerConfig)
    (hs : List (String × String)) (p : UpdateCatalogTaskParams)
    (remote : Remote) (body : PyVal)
    (h : isSysId p.task_id = false)
    (hok : remote (updateNumberQueryRequest config hs p.task_id) = .ok body) :
    (updateNumberQueryRequest config hs p.task_id).method = "GET"
    ∧ (resultList body = [] →
        (update_catalog_task config hs p remote).1.success = false
        ∧ (update_catalog_task config hs p remote).1.message =
            "Catalog task not found: " ++ p.task_id
        ∧ (update_catalog_task config hs p remote).2 =
            [updateNumberQueryRequest config hs p.task_id]
        ∧ ∀ r ∈ (update_catalog_task config hs p remote).2, r.method ≠ "PUT")
    ∧ (∀ rec rs, resultList body = rec :: rs →
        (update_catalog_task config hs p remote).2 =
          [updateNumberQueryRequest config hs p.task_id,
           putRequest hs p
             (config.api_url ++ "/table/sc_task/" ++ (rec.get "sys_id").render)]
        ∧ (putRequest hs p
             (config.api_url ++ "/table/sc_task/" ++ (rec.get "sys_id").render)).method
            = "PUT") := by
  refine ⟨rfl, ?_, ?_⟩
  · intro hres
    rw [update_nonsysid_empty config hs p remote body h hok hres]
    refine ⟨rfl, rfl, rfl, ?_⟩
    intro r hr
    simp only [List.mem_singleton] at hr
    subst hr
    show ("GET" : String) ≠ "PUT"
    decide
  · intro rec rs hres
    rw [update_nonsysid_found config hs p remote body rec rs h hok hres,
      updatePutStep_trace]
    exact ⟨rfl, rfl⟩

/-- Witness for C2 at a concrete number-shaped identifier against a remote
whose resolution query returns no rows. -/
theorem C2_resolution_short_circuit_witness :
    (update_catalog_task cfgEx hdrsEx { task_id := numEx, state := some "3" }
        remoteEmpty).1.success = false
    ∧ (update_catalog_task cfgEx hdrsEx { task_id := numEx, state := some "3" }
        remoteEmpty).2 =
        [updateNumberQueryRequest cfgEx hdrsEx numEx] := by
  have h := C2_resolution_short_circuit cfgEx hdrsEx
    { task_id := numEx, state := some "3" } remoteEmpty
    (.dict [("result", .list [])]) (by decide) rfl
  exact ⟨(h.2.1 rfl).1, (h.2.1 rfl).2.2.1⟩

/-- C3 counterexample: with a number-shaped identifier and a remote that
finds the task, `update_catalog_task` issues two outbound calls, not one. -/
theorem C3_counterexample :
    ¬ ((update_catalog_task cfgEx hdrsEx { task_id := numEx, state := some "3" }
          remoteFound).2).length = 1 := by
  decide

/-- C3 (amended): `list_catalog_tasks` and `get_catalog_task` issue
exactly one outbound call per invocation; `update_catalog_task` issues
exactly one call when `task_id` is sys_id-shaped (the PUT), exactly one
when the number resolution raises or finds no row (that resolving GET),
and exactly two — the resolving GET followed by the PUT on the resolved
sys_id — when a row is found; the two requests of any two-call trace are
distinct, so no endpoint is ever retried. -/
theorem C3_call_count (config : ServerConfig) (hs : List (String × String))
    (lp : ListCatalogTasksParams) (gp : GetCatalogTaskParams)
    (up : UpdateCatalogTaskParams) (remote : Remote) :
    (list_catalog_tasks config hs lp remote).2.length = 1
    ∧ (get_catalog_task config hs gp remote).2.length = 1
    ∧ (isSysId up.task_id = true →
        (update_catalog_task config hs up remote).2 =
          [putRequest hs up (config.api_url ++ "/table/sc_task/" ++ up.task_id)])
    ∧ (∀ e, isSysId up.task_id = false →
        remote (updateNumberQueryRequest config hs up.task_id) = .exc e →
        (update_catalog_task config hs up remote).2 =
          [updateNumberQueryRequest config hs up.task_id])
    ∧ (∀ body, isSysId up.task_id = false →
        remote (updateNumberQueryRequest config hs up.task_id) = .ok body →
        resultList body = [] →
        (update_catalog_task config hs up remote).2 =
          [updateNumberQueryRequest config hs up.task_id])
    ∧ (∀ body r rest, isSysId up.task_id = false →
        remote (updateNumberQueryRequest config hs up.task_id) = .ok body →
        resultList body = r :: rest →
        (update_catalog_task config hs up remote).2 =
          [updateNumberQueryRequest config hs up.task_id,
           putRequest hs up
             (config.api_url ++ "/table/sc_task/" ++ (r.get "sys_id").render)]
        ∧ (updateNumberQueryRequest config hs up.task_id).method = "GET"
        ∧ (putRequest hs up
             (config.api_url ++ "/table/sc_task/" ++ (r.get "sys_id").render)).method
            = "PUT")
    ∧ (∀ q1 q2, (update_catalog_task config hs up remote).2 = [q1, q2] →
        q1 ≠ q2) := by
  refine ⟨by rw [list_trace]; rfl, by rw [get_trace]; rfl, ?_, ?_, ?_, ?_, ?_⟩
  · intro h
    rw [update_sysid_eq config hs up remote h, updatePutStep_trace]
    rfl
  · intro e h hrem
    rw [update_nonsysid_exc config hs up remote e h hrem]
  · intro body h hrem hres
    rw [update_nonsysid_empty config hs up remote body h hrem hres]
  · intro body r rest h hrem hres
    rw [update_nonsysid_found config hs up remote body r rest h hrem hres,
      updatePutStep_trace]
    exact ⟨rfl, rfl, rfl⟩
  · intro q1 q2 htr
    by_cases h : isSysId up.task_id
    · rw [update_sysid_eq config hs up remote h, updatePutStep_trace] at htr
      simp at htr
    · simp only [Bool.not_eq_true] at h
      cases hrem : remote (updateNumberQueryRequest config hs up.task_id) with
      | exc e =>
        rw [update_nonsysid_exc config hs up remote e h hrem] at htr
        simp at htr
      | ok body =>
        cases hres : resultList body with
        | nil =>
          rw [update_nonsysid_empty config hs up remote body h hrem hres] at htr
          simp at htr
        | cons r rs =>
          rw [update_nonsysid_found config hs up remote body r rs h hrem hres,
            updatePutStep_trace] at htr
          simp only [List.singleton_append, List.cons.injEq, and_true] at htr
          obtain ⟨h1, h2⟩ := htr
          subst h1
          subst h2
          intro heq
          have hm := congrArg HttpRequest.method heq
          simp [updateNumberQueryRequest, putRequest] at hm

/-- Witness for the amended C3: exactly one call on the sys_id path and
on the empty-resolution path, exactly two distinct calls (the GET, then
the PUT) on the found path. -/
theorem C3_call_count_witness :
    (list_catalog_tasks cfgEx hdrsEx {} remoteFound).2.length = 1
    ∧ (get_catalog_task cfgEx hdrsEx ⟨numEx⟩ remoteFound).2.length = 1
    ∧ (update_catalog_task cfgEx hdrsEx { task_id := sidEx } remoteFound).2 =
        [putRequest hdrsEx { task_id := sidEx }
          (cfgEx.api_url ++ "/table/sc_task/" ++ sidEx)]
    ∧ (update_catalog_task cfgEx hdrsEx { task_id := numEx } remoteEmpty).2 =
        [updateNumberQueryRequest cfgEx hdrsEx numEx]
    ∧ (update_catalog_task cfgEx hdrsEx { task_id := numEx } remoteFound).2 =
        [updateNumberQueryRequest cfgEx hdrsEx numEx,
         putRequest hdrsEx { task_id := numEx }
           (cfgEx.api_url ++ "/table/sc_task/" ++ sidEx)]
    ∧ updateNumberQueryRequest cfgEx hdrsEx numEx ≠
        putRequest hdrsEx { task_id := numEx }
          (cfgEx.api_url ++ "/table/sc_task/" ++ sidEx) := by
  have hFound := C3_call_count cfgEx hdrsEx {} ⟨numEx⟩ { task_id := numEx }
    remoteFound
  have hEmpty := C3_call_count cfgEx hdrsEx {} ⟨numEx⟩ { task_id := numEx }
    remoteEmpty
  have hSid := C3_call_count cfgEx hdrsEx {} ⟨numEx⟩ { task_id := sidEx }
    remoteFound
  have htrace := (hFound.2.2.2.2.2.1 (.dict [("result", .list [recEx])]) recEx
    [] (by decide) rfl rfl).1
  exact ⟨hFound.1, hFound.2.1,
    hSid.2.2.1 (by decide),
    hEmpty.2.2.2.2.1 (.dict [("result", .list [])]) (by decide) rfl rfl,
    htrace,
    hFound.2.2.2.2.2.2 _ _ htrace⟩

/-- Two string concatenations differ when the literal left parts already
differ within their first `n` characters. -/
theorem append_ne_append {a b : String} (n : Nat) (s t : String)
    (ha : n ≤ a.data.length) (hb : n ≤ b.data.length)
    (hab : a.data.take n ≠ b.data.take n) : a ++ s ≠ b ++ t := by
  intro h
  apply hab
  have hd : a.data ++ s.data = b.data ++ t.data := by
    have h2 := congrArg String.data h
    simpa [String.data_append] using h2
  calc a.data.take n = (a.data ++ s.data).take n :=
        (List.take_append_of_le_length ha).symm
    _ = (b.data ++ t.data).take n := by rw [hd]
    _ = b.data.take n := List.take_append_of_le_length hb

/-- An unpopulated (absent or empty) filter field contributes no entry. -/
theorem optFilterEntry_of_false {tag : String} {f : Option String}
    (h : optTruthy f = false) : optFilterEntry tag f = [] := by
  cases f with
  | none => rfl
  | some s =>
    simp only [optTruthy, Bool.not_eq_false'] at h
    simp [optFilterEntry, h]

/-- An unpopulated `query` field contributes no entry. -/
theorem queryFilterEntry_of_false {f : Option String}
    (h : optTruthy f = false) : queryFilterEntry f = [] := by
  cases f with
  | none => rfl
  | some s =>
    simp only [optTruthy, Bool.not_eq_false'] at h
    simp [queryFilterEntry, h]

/-- A populated filter field contributes exactly its one predicate. -/
theorem optFilterEntry_of_some (tag : String) {s : String} {f : Option String}
    (hf : f = some s) (hs : s ≠ "") : optFilterEntry tag f = [tag ++ s] := by
  subst hf
  have hse : s.isEmpty = false := by
    cases h : s.isEmpty
    · rfl
    · exact absurd ((String.isEmpty_iff s).mp h) hs
  simp [optFilterEntry, hse]

/-- A populated `query` field contributes exactly its one LIKE predicate. -/
theorem queryFilterEntry_of_some {q : String} {f : Option String}
    (hf : f = some q) (hq : q ≠ "") :
    queryFilterEntry f =
      ["short_descriptionLIKE" ++ q ++ "^ORdescriptionLIKE" ++ q] := by
  subst hf
  have hse : q.isEmpty = false := by
    cases h : q.isEmpty
    · rfl
    · exact absurd ((String.isEmpty_iff q).mp h) hq
  simp [queryFilterEntry, hse]

/-- A filter block has one entry when populated, none otherwise. -/
theorem optFilterEntry_length (tag : String) (f : Option String) :
    (optFilterEntry tag f).length = if optTruthy f then 1 else 0 := by
  cases f with
  | none => rfl
  | some s =>
    cases hse : s.isEmpty <;> simp [optFilterEntry, optTruthy, hse]

/-- The query block has one entry when populated, none otherwise. -/
theorem queryFilterEntry_length (f : Option String) :
    (queryFilterEntry f).length = if optTruthy f then 1 else 0 := by
  cases f with
  | none => rfl
  | some s =>
    cases hse : s.isEmpty <;> simp [queryFilterEntry, optTruthy, hse]

/-- Every entry of a field-equality block starts with its field tag. -/
theorem mem_optFilterEntry {x tag : String} {f : Option String}
    (h : x ∈ optFilterEntry tag f) : ∃ t, x = tag ++ t := by
  cases f with
  | none => simp [optFilterEntry] at h
  | some s =>
    cases hse : s.isEmpty <;> simp [optFilterEntry, hse] at h
    exact ⟨s, h⟩

/-- Every entry of the query block starts with `short_descriptionLIKE`. -/
theorem mem_queryFilterEntry {x : String} {f : Option String}
    (h : x ∈ queryFilterEntry f) : ∃ r, x = "short_descriptionLIKE" ++ r := by
  cases f with
  | none => simp [queryFilterEntry] at h
  | some q =>
    cases hse : q.isEmpty <;> simp [queryFilterEntry, hse] at h
    exact ⟨q ++ ("^ORdescriptionLIKE" ++ q), by simp [h, String.append_assoc]⟩

/-- A string that cannot start with a block's tag does not occur in it. -/
theorem count_optFilterEntry_zero {x tag : String} {f : Option String}
    (h : ∀ t : String, x ≠ tag ++ t) :
    List.count x (optFilterEntry tag f) = 0 := by
  rw [List.count_eq_zero]
  intro hm
  obtain ⟨t, ht⟩ := mem_optFilterEntry hm
  exact h t ht

/-- A string that cannot start with `short_descriptionLIKE` does not occur
in the query block. -/
theorem count_queryFilterEntry_zero {x : String} {f : Option String}
    (h : ∀ r : String, x ≠ "short_descriptionLIKE" ++ r) :
    List.count x (queryFilterEntry f) = 0 := by
  rw [List.count_eq_zero]
  intro hm
  obtain ⟨r, hr⟩ := mem_queryFilterEntry hm
  exact h r hr

/-- C4: when `state`, `assigned_to`, `assignment_group`, `request` and
`query` are all unpopulated, the GET of `list_catalog_tasks` carries no
`sysparm_query` key; otherwise `sysparm_query` is the caret-join of the
filters, the number of filters equals the number of populated fields, and
each populated field contributes its predicate exactly once (field
equality for the four reference fields, the LIKE disjunction for
`query`). -/
theorem C4_filter_construction (config : ServerConfig)
    (hs : List (String × String)) (p : ListCatalogTasksParams)
    (remote : Remote) :
    (list_catalog_tasks config hs p remote).2 = [listRequest config hs p]
    ∧ ((optTruthy p.state = false ∧ optTruthy p.assigned_to = false
        ∧ optTruthy p.assignment_group = false ∧ optTruthy p.request = false
        ∧ optTruthy p.query = false) →
        (listRequest config hs p).params.lookup "sysparm_query" = Option.none)
    ∧ (listFilters p ≠ [] →
        (listRequest config hs p).params.lookup "sysparm_query" =
          some (String.intercalate "^" (listFilters p)))
    ∧ (listFilters p).length =
        ((if optTruthy p.state then 1 else 0)
          + (if optTruthy p.assigned_to then 1 else 0)
          + (if optTruthy p.assignment_group then 1 else 0)
          + (if optTruthy p.request then 1 else 0)
          + (if optTruthy p.query then 1 else 0))
    ∧ (∀ s, p.state = some s → s ≠ "" →
        (listFilters p).count ("state=" ++ s) = 1)
    ∧ (∀ s, p.assigned_to = some s → s ≠ "" →
        (listFilters p).count ("assigned_to=" ++ s) = 1)
    ∧ (∀ s, p.assignment_group = some s → s ≠ "" →
        (listFilters p).count ("assignment_group=" ++ s) = 1)
    ∧ (∀ s, p.request = some s → s ≠ "" →
        (listFilters p).count ("request=" ++ s) = 1)
    ∧ (∀ q, p.query = some q → q ≠ "" →
        (listFilters p).count
          ("short_descriptionLIKE" ++ q ++ "^ORdescriptionLIKE" ++ q) = 1) := by
  refine ⟨list_trace config hs p remote, ?_, ?_, ?_, ?_, ?_, ?_, ?_, ?_⟩
  · rintro ⟨h1, h2, h3, h4, h5⟩
    have hnil : listFilters p = [] := by
      rw [listFilters, optFilterEntry_of_false h1, optFilterEntry_of_false h2,
        optFilterEntry_of_false h3, optFilterEntry_of_false h4,
        queryFilterEntry_of_false h5]
      rfl
    simp only [listRequest, listQueryParams, hnil]
    rfl
  · intro h
    have hne : (listFilters p).isEmpty = false := by
      cases hf : listFilters p
      · exact absurd hf h
      · rfl
    simp only [listRequest, listQueryParams, hne, Bool.false_eq_true, if_false]
    rfl
  · simp only [listFilters, List.length_append, optFilterEntry_length,
      queryFilterEntry_length]
  · intro s hst hsne
    have hblk := optFilterEntry_of_some "state=" hst hsne
    have h2 : List.count ("state=" ++ s)
        (optFilterEntry "assigned_to=" p.assigned_to) = 0 :=
      count_optFilterEntry_zero
        (fun t => append_ne_append 1 s t (by decide) (by decide) (by decide))
    have h3 : List.count ("state=" ++ s)
        (optFilterEntry "assignment_group=" p.assignment_group) = 0 :=
      count_optFilterEntry_zero
        (fun t => append_ne_append 1 s t (by decide) (by decide) (by decide))
    have h4 : List.count ("state=" ++ s)
        (optFilterEntry "request=" p.request) = 0 :=
      count_optFilterEntry_zero
        (fun t => append_ne_append 1 s t (by decide) (by decide) (by decide))
    have h5 : List.count ("state=" ++ s) (queryFilterEntry p.query) = 0 :=
      count_queryFilterEntry_zero
        (fun r => append_ne_append 2 s r (by decide) (by decide) (by decide))
    simp [listFilters, List.count_append, hblk, h2, h3, h4, h5]
  · intro s hst hsne
    have hblk := optFilterEntry_of_some "assigned_to=" hst hsne
    have h1 : List.count ("assigned_to=" ++ s)
        (optFilterEntry "state=" p.state) = 0 :=
      count_optFilterEntry_zero
        (fun t => append_ne_append 1 s t (by decide) (by decide) (by decide))
    have h3 : List.count ("assigned_to=" ++ s)
        (optFilterEntry "assignment_group=" p.assignment_group) = 0 :=
      count_optFilterEntry_zero
        (fun t => append_ne_append 7 s t (by decide) (by decide) (by decide))
    have h4 : List.count ("assigned_to=" ++ s)
        (optFilterEntry "request=" p.request) = 0 :=
      count_optFilterEntry_zero
        (fun t => append_ne_append 1 s t (by decide) (by decide) (by decide))
    have h5 : List.count ("assigned_to=" ++ s) (queryFilterEntry p.query) = 0 :=
      count_queryFilterEntry_zero
        (fun r => append_ne_append 1 s r (by decide) (by decide) (by decide))
    simp [listFilters, List.count_append, hblk, h1, h3, h4, h5]
  · intro s hst hsne
    have hblk := optFilterEntry_of_some "assignment_group=" hst hsne
    have h1 : List.count ("assignment_group=" ++ s)
        (optFilterEntry "state=" p.state) = 0 :=
      count_optFilterEntry_zero
        (fun t => append_ne_append 1 s t (by decide) (by decide) (by decide))
    have h2 : List.count ("assignment_group=" ++ s)
        (optFilterEntry "assigned_to=" p.assigned_to) = 0 :=
      count_optFilterEntry_zero
        (fun t => append_ne_append 7 s t (by decide) (by decide) (by decide))
    have h4 : List.count ("assignment_group=" ++ s)
        (optFilterEntry "request=" p.request) = 0 :=
      count_optFilterEntry_zero
        (fun t => append_ne_append 1 s t (by decide) (by decide) (by decide))
    have h5 : List.count ("assignment_group=" ++ s)
        (queryFilterEntry p.query) = 0 :=
      count_queryFilterEntry_zero
        (fun r => append_ne_append 1 s r (by decide) (by decide) (by decide))
    simp [listFilters, List.count_append, hblk, h1, h2, h4, h5]
  · intro s hst hsne
    have hblk := optFilterEntry_of_some "request=" hst hsne
    have h1 : List.count ("request=" ++ s)
        (optFilterEntry "state=" p.state) = 0 :=
      count_optFilterEntry_zero
        (fun t => append_ne_append 1 s t (by decide) (by decide) (by decide))
    have h2 : List.count ("request=" ++ s)
        (optFilterEntry "assigned_to=" p.assigned_to) = 0 :=
      count_optFilterEntry_zero
        (fun t => append_ne_append 1 s t (by decide) (by decide) (by decide))
    have h3 : List.count ("request=" ++ s)
        (optFilterEntry "assignment_group=" p.assignment_group) = 0 :=
      count_optFilterEntry_zero
        (fun t => append_ne_append 1 s t (by decide) (by decide) (by decide))
    have h5 : List.count ("request=" ++ s) (queryFilterEntry p.query) = 0 :=
      count_queryFilterEntry_zero
        (fun r => append_ne_append 1 s r (by decide) (by decide) (by decide))
    simp [listFilters, List.count_append, hblk, h1, h2, h3, h5]
  · intro q hq hqne
    have hblk := queryFilterEntry_of_some hq hqne
    have hassoc : "short_descriptionLIKE" ++ q ++ "^ORdescriptionLIKE" ++ q =
        "short_descriptionLIKE" ++ (q ++ ("^ORdescriptionLIKE" ++ q)) := by
      simp [String.append_assoc]
    have h1 : List.count
        ("short_descriptionLIKE" ++ q ++ "^ORdescriptionLIKE" ++ q)
        (optFilterEntry "state=" p.state) = 0 :=
      count_optFilterEntry_zero (fun t => by
        rw [hassoc]
        exact append_ne_append 2 (q ++ ("^ORdescriptionLIKE" ++ q)) t
          (by decide) (by decide) (by decide))
    have h2 : List.count
        ("short_descriptionLIKE" ++ q ++ "^ORdescriptionLIKE" ++ q)
        (optFilterEntry "assigned_to=" p.assigned_to) = 0 :=
      count_optFilterEntry_zero (fun t => by
        rw [hassoc]
        exact append_ne_append 1 (q ++ ("^ORdescriptionLIKE" ++ q)) t
          (by decide) (by decide) (by decide))
    have h3 : List.count
        ("short_descriptionLIKE" ++ q ++ "^ORdescriptionLIKE" ++ q)
        (optFilterEntry "assignment_group=" p.assignment_group) = 0 :=
      count_optFilterEntry_zero (fun t => by
        rw [hassoc]
        exact append_ne_append 1 (q ++ ("^ORdescriptionLIKE" ++ q)) t
          (by decide) (by decide) (by decide))
    have h4 : List.count
        ("short_descriptionLIKE" ++ q ++ "^ORdescriptionLIKE" ++ q)
        (optFilterEntry "request=" p.request) = 0 :=
      count_optFilterEntry_zero (fun t => by
        rw [hassoc]
        exact append_ne_append 1 (q ++ ("^ORdescriptionLIKE" ++ q)) t
          (by decide) (by decide) (by decide))
    simp [listFilters, List.count_append, hblk, h1, h2, h3, h4]

/-- Witness for C4: no filters gives no `sysparm_query`; a `state` filter
contributes exactly one predicate. -/
theorem C4_filter_construction_witness :
    (listRequest cfgEx hdrsEx {}).params.lookup "sysparm_query" = Option.none
    ∧ (listFilters { state := some "3" }).count ("state=" ++ "3") = 1 := by
  have h0 := C4_filter_construction cfgEx hdrsEx {} remoteEmpty
  have h1 := C4_filter_construction cfgEx hdrsEx { state := some "3" } remoteEmpty
  exact ⟨h0.2.1 ⟨rfl, rfl, rfl, rfl, rfl⟩,
    h1.2.2.2.2.1 "3" rfl (by decide)⟩

/-- `displayNorm` leaves every non-dict value unchanged. -/
theorem displayNorm_of_not_dict (v : PyVal) (h : ∀ fs, v ≠ .dict fs) :
    displayNorm v = v := by
  cases v <;> first | rfl | exact absurd rfl (h _)

/-- C5: for each reference field among `assigned_to`, `assignment_group`
and `request`, a dict-valued remote field is normalised to its
`display_value` and a scalar passes through unchanged, in the task dicts
produced by both `list_catalog_tasks` and `get_catalog_task`. -/
theorem C5_reference_display (td : PyVal) (config : ServerConfig)
    (hs : List (String × String)) (p : ListCatalogTasksParams)
    (gp : GetCatalogTaskParams) (remote : Remote) :
    (∀ f ∈ (["assigned_to", "assignment_group", "request"] : List String),
      (∀ fs, td.get f = .dict fs →
        (PyVal.dict (normalizeListTask td)).get f =
          (PyVal.dict fs).get "display_value"
        ∧ (PyVal.dict (normalizeGetTask td)).get f =
          (PyVal.dict fs).get "display_value")
      ∧ ((∀ fs, td.get f ≠ .dict fs) →
        (PyVal.dict (normalizeListTask td)).get f = td.get f
        ∧ (PyVal.dict (normalizeGetTask td)).get f = td.get f))
    ∧ (∀ body, remote (listRequest config hs p) = .ok body →
        (list_catalog_tasks config hs p remote).1.get "tasks" =
          .list ((resultList body).map
            (fun r => PyVal.dict (normalizeListTask r))))
    ∧ (∀ body r rest, isSysId gp.task_id = false →
        remote (getNumberQueryRequest config hs gp.task_id) = .ok body →
        resultList body = r :: rest →
        (get_catalog_task config hs gp remote).1.get "task" =
          .dict (normalizeGetTask r))
    ∧ (∀ body, isSysId gp.task_id = true →
        remote (getDirectRequest config hs gp.task_id) = .ok body →
        (body.getD "result" (.dict [])).truthy = true →
        (get_catalog_task config hs gp remote).1.get "task" =
          .dict (normalizeGetTask (body.getD "result" (.dict [])))) := by
  refine ⟨?_, ?_, ?_, ?_⟩
  · intro f hf
    simp only [List.mem_cons, List.mem_singleton, List.not_mem_nil, or_false] at hf
    rcases hf with hf | hf | hf <;> subst hf <;> refine ⟨?_, ?_⟩
    · intro fs hfs
      constructor
      · show displayNorm (td.get "assigned_to") = (PyVal.dict fs).get "display_value"
        rw [hfs]
        rfl
      · show displayNorm (td.get "assigned_to") = (PyVal.dict fs).get "display_value"
        rw [hfs]
        rfl
    · intro h
      have hd := displayNorm_of_not_dict (td.get "assigned_to") h
      exact ⟨hd, hd⟩
    · intro fs hfs
      constructor
      · show displayNorm (td.get "assignment_group") = (PyVal.dict fs).get "display_value"
        rw [hfs]
        rfl
      · show displayNorm (td.get "assignment_group") = (PyVal.dict fs).get "display_value"
        rw [hfs]
        rfl
    · intro h
      have hd := displayNorm_of_not_dict (td.get "assignment_group") h
      exact ⟨hd, hd⟩
    · intro fs hfs
      constructor
      · show displayNorm (td.get "request") = (PyVal.dict fs).get "display_value"
        rw [hfs]
        rfl
      · show displayNorm (td.get "request") = (PyVal.dict fs).get "display_value"
        rw [hfs]
        rfl
    · intro h
      have hd := displayNorm_of_not_dict (td.get "request") h
      exact ⟨hd, hd⟩
  · intro body hok
    unfold list_catalog_tasks
    simp only [hok]
    rfl
  · intro body r rest hshape hok hres
    unfold get_catalog_task
    simp only [hshape, Bool.false_eq_true, if_false, hok, hres]
    rfl
  · intro body hshape hok htr
    unfold get_catalog_task
    simp only [hshape, if_true, hok, htr, Bool.not_true, Bool.false_eq_true,
      if_false]
    rfl

/-- Witness for C5 on a concrete record whose `assigned_to` is a
reference object. -/
theorem C5_reference_display_witness :
    (PyVal.dict (normalizeListTask recEx)).get "assigned_to" = .str "Abel Tuter"
    ∧ (get_catalog_task cfgEx hdrsEx ⟨numEx⟩ remoteFound).1.get "task" =
        .dict (normalizeGetTask recEx) := by
  have h := C5_reference_display recEx cfgEx hdrsEx {} ⟨numEx⟩ remoteFound
  constructor
  · have h1 := ((h.1 "assigned_to" (by simp)).1
      [("display_value", .str "Abel Tuter"),
       ("value", .str "aabbccddeeff00112233445566778899")] rfl).1
    rw [h1]
    rfl
  · exact h.2.2.1 (.dict [("result", .list [recEx])]) recEx [] (by decide) rfl rfl

/-- A failing PUT yields the update-failure response. -/
theorem updatePutStep_exc (hs : List (String × String))
    (p : UpdateCatalogTaskParams) (u : String) (remote : Remote)
    (trace0 : List HttpRequest) (e : String)
    (h : remote (putRequest hs p u) = .exc e) :
    updatePutStep hs p u remote trace0 =
      ({ success := false, message := "Failed to update catalog task: " ++ e },
       trace0 ++ [putRequest hs p u]) := by
  unfold updatePutStep
  simp [h]

/-- A successful PUT yields the success response built from `result`. -/
theorem updatePutStep_ok (hs : List (String × String))
    (p : UpdateCatalogTaskParams) (u : String) (remote : Remote)
    (trace0 : List HttpRequest) (body : PyVal)
    (h : remote (putRequest hs p u) = .ok body) :
    updatePutStep hs p u remote trace0 =
      ({ success := true, message := "Catalog task updated successfully",
         task_id := (body.getD "result" (.dict [])).get "sys_id",
         task_number := (body.getD "result" (.dict [])).get "number" },
       trace0 ++ [putRequest hs p u]) := by
  unfold updatePutStep
  simp [h]

/-- C6: every remote-call failure (`RequestException`: network error or
non-2xx) in any of the three handlers is converted into a structured
result with `success=false` and a descriptive message; no failure escapes
(the handlers are total functions into result values). -/
theorem C6_failure_handling (config : ServerConfig)
    (hs : List (String × String)) (lp : ListCatalogTasksParams)
    (gp : GetCatalogTaskParams) (up : UpdateCatalogTaskParams)
    (remote : Remote) (e : String) :
    (remote (listRequest config hs lp) = .exc e →
      (list_catalog_tasks config hs lp remote).1.get "success" = .boolean false
      ∧ (list_catalog_tasks config hs lp remote).1.get "message" =
          .str ("Failed to list catalog tasks: " ++ e))
    ∧ (isSysId gp.task_id = true →
        remote (getDirectRequest config hs gp.task_id) = .exc e →
        (get_catalog_task config hs gp remote).1.get "success" = .boolean false
        ∧ (get_catalog_task config hs gp remote).1.get "message" =
            .str ("Failed to fetch catalog task: " ++ e))
    ∧ (isSysId gp.task_id = false →
        remote (getNumberQueryRequest config hs gp.task_id) = .exc e →
        (get_catalog_task config hs gp remote).1.get "success" = .boolean false
        ∧ (get_catalog_task config hs gp remote).1.get "message" =
            .str ("Failed to fetch catalog task: " ++ e))
    ∧ (isSysId up.task_id = true →
        remote (putRequest hs up
          (config.api_url ++ "/table/sc_task/" ++ up.task_id)) = .exc e →
        (update_catalog_task config hs up remote).1.success = false
        ∧ (update_catalog_task config hs up remote).1.message =
            "Failed to update catalog task: " ++ e)
    ∧ (isSysId up.task_id = false →
        remote (updateNumberQueryRequest config hs up.task_id) = .exc e →
        (update_catalog_task config hs up remote).1.success = false
        ∧ (update_catalog_task config hs up remote).1.message =
            "Failed to find catalog task: " ++ e)
    ∧ (∀ body r rest, isSysId up.task_id = false →
        remote (updateNumberQueryRequest config hs up.task_id) = .ok body →
        resultList body = r :: rest →
        remote (putRequest hs up
          (config.api_url ++ "/table/sc_task/" ++ (r.get "sys_id").render))
          = .exc e →
        (update_catalog_task config hs up remote).1.success = false
        ∧ (update_catalog_task config hs up remote).1.message =
            "Failed to update catalog task: " ++ e) := by
  refine ⟨?_, ?_, ?_, ?_, ?_, ?_⟩
  · intro hexc
    unfold list_catalog_tasks
    simp only [hexc]
    exact ⟨rfl, rfl⟩
  · intro hshape hexc
    unfold get_catalog_task
    simp only [hshape, if_true, hexc]
    exact ⟨rfl, rfl⟩
  · intro hshape hexc
    unfold get_catalog_task
    simp only [hshape, Bool.false_eq_true, if_false, hexc]
    exact ⟨rfl, rfl⟩
  · intro hshape hexc
    rw [update_sysid_eq config hs up remote hshape,
      updatePutStep_exc hs up _ remote [] e hexc]
    exact ⟨rfl, rfl⟩
  · intro hshape hexc
    rw [update_nonsysid_exc config hs up remote e hshape hexc]
    exact ⟨rfl, rfl⟩
  · intro body r rest hshape hok hres hexc
    rw [update_nonsysid_found config hs up remote body r rest hshape hok hres,
      updatePutStep_exc hs up _ remote _ e hexc]
    exact ⟨rfl, rfl⟩

/-- Witness for C6 against a remote that always raises. -/
theorem C6_failure_handling_witness :
    (list_catalog_tasks cfgEx hdrsEx {} remoteExc).1.get "success" =
      .boolean false
    ∧ (get_catalog_task cfgEx hdrsEx ⟨sidEx⟩ remoteExc).1.get "message" =
      .str ("Failed to fetch catalog task: " ++ "connection error")
    ∧ (update_catalog_task cfgEx hdrsEx { task_id := numEx } remoteExc).1.message =
      "Failed to find catalog task: " ++ "connection error" := by
  have h := C6_failure_handling cfgEx hdrsEx {} ⟨sidEx⟩ { task_id := numEx }
    remoteExc "connection error"
  exact ⟨(h.1 rfl).1, (h.2.1 (by decide) rfl).2, (h.2.2.2.2.1 (by decide) rfl).2⟩

/-- C7: if any of the three ServiceNow headers is missing, `handle_sse`
returns HTTP 400 with the JSON error body and creates no MCP session. -/
theorem C7_missing_headers (iu un pw : Option String)
    (h : iu = Option.none ∨ un = Option.none ∨ pw = Option.none) :
    handle_sse iu un pw =
      .jsonError 400
        [("error", "Missing required headers for ServiceNow connection")]
    ∧ ∀ a b c, handle_sse iu un pw ≠ .session a b c := by
  have htr : (headerTruthy iu && headerTruthy un && headerTruthy pw) = false := by
    rcases h with h | h | h <;> subst h <;>
      simp [headerTruthy, Bool.and_eq_false_iff]
  constructor
  · unfold handle_sse
    rw [htr]
    rfl
  · intro a b c
    unfold handle_sse
    rw [htr]
    simp

/-- Witness for C7 with the username header missing. -/
theorem C7_missing_headers_witness :
    handle_sse (some "https://dev.service-now.com") Option.none (some "pw") =
      .jsonError 400
        [("error", "Missing required headers for ServiceNow connection")] :=
  (C7_missing_headers (some "https://dev.service-now.com") Option.none
    (some "pw") (Or.inr (Or.inl rfl))).1

/-- C8: every handler outcome carries a boolean `success` and a string
`message`; `list_catalog_tasks` always carries a `tasks` list,
`get_catalog_task` carries a `task` dict whenever it succeeds, and
`update_catalog_task` always returns a `CatalogTaskResponse` with its
`task_id`/`task_number` payload fields. -/
theorem C8_response_shape (config : ServerConfig)
    (hs : List (String × String)) (lp : ListCatalogTasksParams)
    (gp : GetCatalogTaskParams) (up : UpdateCatalogTaskParams)
    (remote : Remote) :
    (∃ b m ts, (list_catalog_tasks config hs lp remote).1 =
        .dict [("success", .boolean b), ("message", .str m),
               ("tasks", .list ts)])
    ∧ (∃ b m, (get_catalog_task config hs gp remote).1.get "success" = .boolean b
        ∧ (get_catalog_task config hs gp remote).1.get "message" = .str m
        ∧ (b = true → ∃ t, (get_catalog_task config hs gp remote).1.get "task" =
            .dict t))
    ∧ (∃ b m t1 t2, (update_catalog_task config hs up remote).1 =
        { success := b, message := m, task_id := t1, task_number := t2 }) := by
  refine ⟨?_, ?_, ?_⟩
  · cases hrem : remote (listRequest config hs lp) with
    | exc e =>
      unfold list_catalog_tasks
      simp only [hrem]
      exact ⟨false, "Failed to list catalog tasks: " ++ e, [], rfl⟩
    | ok body =>
      unfold list_catalog_tasks
      simp only [hrem]
      exact ⟨true,
        "Found " ++ toString ((resultList body).map
          (fun td => PyVal.dict (normalizeListTask td))).length
          ++ " catalog tasks",
        (resultList body).map (fun td => PyVal.dict (normalizeListTask td)),
        rfl⟩
  · by_cases hshape : isSysId gp.task_id
    · cases hrem : remote (getDirectRequest config hs gp.task_id) with
      | exc e =>
        unfold get_catalog_task
        simp only [hshape, if_true, hrem]
        exact ⟨false, "Failed to fetch catalog task: " ++ e, rfl, rfl,
          fun hb => by cases hb⟩
      | ok body =>
        by_cases htr : (body.getD "result" (.dict [])).truthy
        · unfold get_catalog_task
          simp only [hshape, if_true, hrem, htr, Bool.not_true,
            Bool.false_eq_true, if_false]
          exact ⟨true, _, rfl, rfl,
            fun _ => ⟨normalizeGetTask (body.getD "result" (.dict [])), rfl⟩⟩
        · unfold get_catalog_task
          simp only [Bool.not_eq_true] at htr
          simp only [hshape, if_true, hrem, htr, Bool.not_false, if_true]
          exact ⟨false, "Catalog task not found: " ++ gp.task_id, rfl, rfl,
            fun hb => by cases hb⟩
    · simp only [Bool.not_eq_true] at hshape
      cases hrem : remote (getNumberQueryRequest config hs gp.task_id) with
      | exc e =>
        unfold get_catalog_task
        simp only [hshape, Bool.false_eq_true, if_false, hrem]
        exact ⟨false, "Failed to fetch catalog task: " ++ e, rfl, rfl,
          fun hb => by cases hb⟩
      | ok body =>
        cases hres : resultList body with
        | nil =>
          unfold get_catalog_task
          simp only [hshape, Bool.false_eq_true, if_false, hrem, hres]
          exact ⟨false, "Catalog task not found: " ++ gp.task_id, rfl, rfl,
            fun hb => by cases hb⟩
        | cons r rest =>
          unfold get_catalog_task
          simp only [hshape, Bool.false_eq_true, if_false, hrem, hres]
          exact ⟨true, _, rfl, rfl, fun _ => ⟨normalizeGetTask r, rfl⟩⟩
  · exact ⟨(update_catalog_task config hs up remote).1.success,
      (update_catalog_task config hs up remote).1.message,
      (update_catalog_task config hs up remote).1.task_id,
      (update_catalog_task config hs up remote).1.task_number, rfl⟩

/-- Witness-style instantiation of C8 at concrete inputs (no hypotheses
are needed; the inner implication is discharged on a success case). -/
theorem C8_response_shape_witness :
    ∃ t, (get_catalog_task cfgEx hdrsEx ⟨numEx⟩ remoteFound).1.get "task" =
      .dict t := by
  obtain ⟨-, ⟨b, m, hb, hm, ht⟩, -⟩ :=
    C8_response_shape cfgEx hdrsEx {} ⟨numEx⟩ { task_id := numEx } remoteFound
  apply ht
  have : (get_catalog_task cfgEx hdrsEx ⟨numEx⟩ remoteFound).1.get "success" =
      .boolean true := rfl
  rw [this] at hb
  cases hb
  rfl

/-- Membership in one PUT-body guard block: the pair is there exactly when
the guarded parameter is that non-empty string. -/
theorem mem_optDataEntry {k k2 v : String} {f : Option String} :
    (k2, v) ∈ optDataEntry k f ↔ (k2 = k ∧ f = some v ∧ v ≠ "") := by
  cases f with
  | none => simp [optDataEntry]
  | some s =>
    cases hse : s.isEmpty with
    | true =>
      simp only [optDataEntry, hse, if_true, List.not_mem_nil, false_iff]
      rintro ⟨-, hv, hne⟩
      injection hv with hv
      exact hne (hv ▸ (String.isEmpty_iff s).mp hse)
    | false =>
      simp only [optDataEntry, hse, Bool.false_eq_true, if_false,
        List.mem_singleton, Prod.mk.injEq, Option.some.injEq]
      constructor
      · rintro ⟨hk, hv⟩
        subst hv
        refine ⟨hk, rfl, ?_⟩
        intro hveq
        rw [hveq] at hse
        exact absurd hse (by decide)
      · rintro ⟨hk, hv, -⟩
        exact ⟨hk, hv.symm⟩

/-- C9: the PUT body of `update_catalog_task` holds exactly those of
`state`, `assigned_to`, `assignment_group`, `work_notes`, `close_notes`
whose parameter value is a non-empty string; `None` and empty-string
parameters are omitted, and no other key ever appears. -/
theorem C9_put_body (config : ServerConfig) (hs : List (String × String))
    (p : UpdateCatalogTaskParams) (remote : Remote) :
    (∀ r ∈ (update_catalog_task config hs p remote).2,
      r.method = "PUT" → r.jsonBody = buildUpdateData p)
    ∧ (∀ s, ("state", s) ∈ buildUpdateData p ↔ (p.state = some s ∧ s ≠ ""))
    ∧ (∀ s, ("assigned_to", s) ∈ buildUpdateData p ↔
        (p.assigned_to = some s ∧ s ≠ ""))
    ∧ (∀ s, ("assignment_group", s) ∈ buildUpdateData p ↔
        (p.assignment_group = some s ∧ s ≠ ""))
    ∧ (∀ s, ("work_notes", s) ∈ buildUpdateData p ↔
        (p.work_notes = some s ∧ s ≠ ""))
    ∧ (∀ s, ("close_notes", s) ∈ buildUpdateData p ↔
        (p.close_notes = some s ∧ s ≠ ""))
    ∧ (∀ kv ∈ buildUpdateData p,
        kv.1 ∈ (["state", "assigned_to", "assignment_group", "work_notes",
          "close_notes"] : List String)) := by
  refine ⟨?_, ?_, ?_, ?_, ?_, ?_, ?_⟩
  · intro r hr hput
    by_cases hshape : isSysId p.task_id
    · rw [update_sysid_eq config hs p remote hshape, updatePutStep_trace] at hr
      have hr2 : r = putRequest hs p
          (config.api_url ++ "/table/sc_task/" ++ p.task_id) := by
        simpa using hr
      subst hr2
      rfl
    · simp only [Bool.not_eq_true] at hshape
      cases hrem : remote (updateNumberQueryRequest config hs p.task_id) with
      | exc e =>
        rw [update_nonsysid_exc config hs p remote e hshape hrem] at hr
        simp only [List.mem_singleton] at hr
        subst hr
        simp [updateNumberQueryRequest] at hput
      | ok body =>
        cases hres : resultList body with
        | nil =>
          rw [update_nonsysid_empty config hs p remote body hshape hrem hres] at hr
          simp only [List.mem_singleton] at hr
          subst hr
          simp [updateNumberQueryRequest] at hput
        | cons rr rs =>
          rw [update_nonsysid_found config hs p remote body rr rs hshape hrem hres,
            updatePutStep_trace] at hr
          simp only [List.singleton_append, List.mem_cons,
            List.not_mem_nil, or_false] at hr
          rcases hr with hr | hr <;> subst hr
          · simp [updateNumberQueryRequest] at hput
          · rfl
  · intro s
    simp [buildUpdateData, List.mem_append, mem_optDataEntry]
  · intro s
    simp [buildUpdateData, List.mem_append, mem_optDataEntry]
  · intro s
    simp [buildUpdateData, List.mem_append, mem_optDataEntry]
  · intro s
    simp [buildUpdateData, List.mem_append, mem_optDataEntry]
  · intro s
    simp [buildUpdateData, List.mem_append, mem_optDataEntry]
  · rintro ⟨k2, v⟩ hkv
    simp only [buildUpdateData, List.mem_append] at hkv
    rcases hkv with ((((h | h) | h) | h) | h) <;>
      rcases mem_optDataEntry.mp h with ⟨hk, -, -⟩ <;> subst hk <;> simp

/-- Witness for C9: with only `state` populated, the PUT body is exactly
the `state` pair; unset fields are absent. -/
theorem C9_put_body_witness :
    (putRequest hdrsEx { task_id := sidEx, state := some "3" }
        (cfgEx.api_url ++ "/table/sc_task/" ++ sidEx)).jsonBody =
      buildUpdateData { task_id := sidEx, state := some "3" }
    ∧ ("state", "3") ∈ buildUpdateData { task_id := sidEx, state := some "3" }
    ∧ ("work_notes", "x") ∉ buildUpdateData { task_id := sidEx, state := some "3" } := by
  have h := C9_put_body cfgEx hdrsEx { task_id := sidEx, state := some "3" }
    remoteFound
  refine ⟨h.1 _ (by decide) rfl, (h.2.1 "3").mpr ⟨rfl, by decide⟩, ?_⟩
  intro hmem
  rcases (h.2.2.2.2.1 "x").mp hmem with ⟨hwn, -⟩
  exact absurd hwn (by decide)

/-- A key outside a dict's key list looks up to nothing. -/
theorem lookup_none_of_not_mem_keys (l : List (String × PyVal)) {k : String}
    (h : k ∉ l.map Prod.fst) : l.lookup k = Option.none := by
  induction l with
  | nil => rfl
  | cons a t ih =>
    simp only [List.map_cons, List.mem_cons, not_or] at h
    obtain ⟨h1, h2⟩ := h
    obtain ⟨a1, a2⟩ := a
    have hb : (k == a1) = false := beq_eq_false_iff_ne.mpr h1
    simp [List.lookup, hb, ih h2]

/-- C10: the normalised task of `list_catalog_tasks` has exactly the
thirteen fixed keys and that of `get_catalog_task` those plus
`work_notes` and `close_notes`; any other remote field is dropped (absent
keys look up to `None`) and any missing remote field surfaces as `None`. -/
theorem C10_fixed_key_set (td : PyVal) (k : String) :
    (normalizeListTask td).map Prod.fst =
      ["sys_id", "number", "short_description", "description", "state",
       "assigned_to", "assignment_group", "request", "request_sys_id",
       "created_on", "updated_on", "due_date", "priority"]
    ∧ (normalizeGetTask td).map Prod.fst =
      ["sys_id", "number", "short_description", "description", "state",
       "assigned_to", "assignment_group", "request", "request_sys_id",
       "created_on", "updated_on", "due_date", "priority", "work_notes",
       "close_notes"]
    ∧ (k ∉ (normalizeListTask td).map Prod.fst →
        (PyVal.dict (normalizeListTask td)).get k = PyVal.none)
    ∧ (k ∉ (normalizeGetTask td).map Prod.fst →
        (PyVal.dict (normalizeGetTask td)).get k = PyVal.none)
    ∧ (∀ pr ∈ ([("sys_id", "sys_id"), ("number", "number"),
        ("short_description", "short_description"),
        ("description", "description"), ("state", "state"),
        ("assigned_to", "assigned_to"),
        ("assignment_group", "assignment_group"), ("request", "request"),
        ("request_sys_id", "request"), ("created_on", "sys_created_on"),
        ("updated_on", "sys_updated_on"), ("due_date", "due_date"),
        ("priority", "priority")] : List (String × String)),
        td.get pr.2 = PyVal.none →
        (PyVal.dict (normalizeListTask td)).get pr.1 = PyVal.none
        ∧ (PyVal.dict (normalizeGetTask td)).get pr.1 = PyVal.none)
    ∧ (td.get "work_notes" = PyVal.none →
        (PyVal.dict (normalizeGetTask td)).get "work_notes" = PyVal.none)
    ∧ (td.get "close_notes" = PyVal.none →
        (PyVal.dict (normalizeGetTask td)).get "close_notes" = PyVal.none) := by
  refine ⟨rfl, rfl, ?_, ?_, ?_, fun h => h, fun h => h⟩
  · intro hk
    have hl := lookup_none_of_not_mem_keys (normalizeListTask td) hk
    show PyVal.get (PyVal.dict (normalizeListTask td)) k = PyVal.none
    simp [PyVal.get, hl]
  · intro hk
    have hl := lookup_none_of_not_mem_keys (normalizeGetTask td) hk
    show PyVal.get (PyVal.dict (normalizeGetTask td)) k = PyVal.none
    simp [PyVal.get, hl]
  · intro pr hpr
    simp only [List.mem_cons, List.not_mem_nil, or_false] at hpr
    rcases hpr with rfl | rfl | rfl | rfl | rfl | rfl | rfl | rfl | rfl
      | rfl | rfl | rfl | rfl <;> intro h
    · exact ⟨h, h⟩
    · exact ⟨h, h⟩
    · exact ⟨h, h⟩
    · exact ⟨h, h⟩
    · exact ⟨h, h⟩
    · constructor
      · show displayNorm (td.get "assigned_to") = PyVal.none
        rw [h]
        rfl
      · show displayNorm (td.get "assigned_to") = PyVal.none
        rw [h]
        rfl
    · constructor
      · show displayNorm (td.get "assignment_group") = PyVal.none
        rw [h]
        rfl
      · show displayNorm (td.get "assignment_group") = PyVal.none
        rw [h]
        rfl
    · constructor
      · show displayNorm (td.get "request") = PyVal.none
        rw [h]
        rfl
      · show displayNorm (td.get "request") = PyVal.none
        rw [h]
        rfl
    · constructor
      · show requestSysId (td.get "request") = PyVal.none
        rw [h]
        rfl
      · show requestSysId (td.get "request") = PyVal.none
        rw [h]
        rfl
    · exact ⟨h, h⟩
    · exact ⟨h, h⟩
    · exact ⟨h, h⟩
    · exact ⟨h, h⟩

/-- Witness for C10 on a concrete record: a field absent from the remote
record surfaces as `None`, and a key outside the fixed set is dropped. -/
theorem C10_fixed_key_set_witness :
    (PyVal.dict (normalizeListTask recEx)).get "priority" = PyVal.none
    ∧ (PyVal.dict (normalizeGetTask recEx)).get "color" = PyVal.none := by
  have h := C10_fixed_key_set recEx "color"
  exact ⟨(h.2.2.2.2.1 ("priority", "priority") (by decide) rfl).1,
    h.2.2.2.1 (by decide)⟩
